import Mathlib

/-!
Shallow embedding of the OpenClaw MCP server (hand-rolled Streamable HTTP
variant, the `handleRequest` dispatcher and `/mcp` POST endpoint, together
with the shared tool implementations).

External effects are modelled explicitly:
* the `openclaw` command-line agent is an oracle `List String → SpawnResult`
  mapping the spawned argument vector to the process outcome;
* the `MEMORY.md` file is `Option String` — `none` when the file does not
  exist at `join(workspace, "MEMORY.md")`, otherwise its full content;
* `randomUUID()` is a caller-supplied fresh identifier string;
* the process-wide `sessions` map is threaded as an association list.
-/

/-- A JSON-RPC id value (`null`, a number, or a string). A request whose
id field is absent is a notification; absence is modelled by `Option`. -/
inductive JsonId where
  | null
  | num (n : Int)
  | str (s : String)
deriving DecidableEq, Repr

/-- The `params.arguments` object of a `tools/call` request; a field that is
absent on the JSON side is `none`. -/
structure ToolArgs where
  message : Option String := none
  query : Option String := none
deriving DecidableEq, Repr

/-- The `params` object of a request (`params || {}` defaults all fields). -/
structure RpcParams where
  protocolVersion : Option String := none
  clientInfo : Option String := none
  name : Option String := none
  arguments : Option ToolArgs := none
deriving DecidableEq, Repr

/-- An inbound JSON-RPC envelope, as destructured by the POST handler:
`const { method, params, id, jsonrpc } = req.body`. -/
structure RpcRequest where
  jsonrpc : String
  method : String
  params : Option RpcParams := none
  id : Option JsonId := none
deriving DecidableEq, Repr

/-- One property of a tool's JSON input schema (its type is always
`"string"` in this server, so only name and description are recorded). -/
structure SchemaProperty where
  name : String
  description : String
deriving DecidableEq, Repr

/-- A tool's `inputSchema` object (always `type: "object"`). -/
structure InputSchema where
  properties : List SchemaProperty
  required : List String := []
deriving DecidableEq, Repr

/-- An entry of the static `TOOLS` array. -/
structure ToolDescriptor where
  name : String
  description : String
  inputSchema : InputSchema
deriving DecidableEq, Repr

/-- A content block of a tool result; its `type` is always `"text"`. -/
structure ContentBlock where
  text : String
deriving DecidableEq, Repr

/-- The `result` object of a successful JSON-RPC response. -/
inductive RpcResult where
  | initResult (protocolVersion : String) (serverName serverVersion : String)
      (sessionId : String)
  | toolsList (tools : List ToolDescriptor)
  | callResult (content : List ContentBlock) (isError : Bool)
  | emptyResult
deriving DecidableEq, Repr

/-- Either a `result` or an `error` member of a response envelope. -/
inductive RpcPayload where
  | ok (r : RpcResult)
  | err (code : Int) (message : String)
deriving DecidableEq, Repr

/-- An outbound JSON-RPC response envelope. -/
structure RpcResponse where
  id : Option JsonId
  payload : RpcPayload
deriving DecidableEq, Repr

/-- The value stored in the `sessions` map by `initialize`. -/
structure SessionRecord where
  initialized : Bool
  protocolVersion : Option String
  clientInfo : Option String
deriving DecidableEq, Repr

/-- The process-wide `sessions` map, threaded explicitly. -/
abbrev Sessions := List (String × SessionRecord)

/-- Outcome of spawning the `openclaw` subprocess: either the process
closed with an exit code after emitting its buffered stdout and stderr,
or the spawn itself failed (the `error` event) with a message. -/
inductive SpawnResult where
  | closed (code : Int) (stdout stderr : String)
  | spawnErr (msg : String)
deriving DecidableEq, Repr

/-- The environment-derived configuration that the modelled code paths
read (`botName`, `sessionLabel`, `apiKey`; the workspace is folded into
`Env.memory`). -/
structure Config where
  botName : String
  sessionLabel : String
  apiKey : String

/-- The external world: the command-line agent oracle and the content of
`MEMORY.md` (or `none` if the file is absent). -/
structure Env where
  agent : List String → SpawnResult
  memory : Option String

/-- Character-list semantics of JS `String.prototype.startsWith`. -/
def strStartsWith (hay pat : String) : Bool :=
  pat.data.isPrefixOf hay.data

/-- Character-list semantics of JS `String.prototype.substring(n)`. -/
def strDrop (s : String) (n : Nat) : String :=
  String.mk (s.data.drop n)

/-- Character-list semantics of JS `String.prototype.toLowerCase`. -/
def strToLower (s : String) : String :=
  String.mk (s.data.map Char.toLower)

/-- Character-list semantics of JS `String.prototype.trim`. -/
def strTrim (s : String) : String :=
  String.mk (((s.data.dropWhile Char.isWhitespace).reverse.dropWhile
    Char.isWhitespace).reverse)

/-- Splitting a character list at every newline, keeping empty segments:
the semantics of JS `split("\n")`. -/
def splitLinesAux : List Char → List (List Char)
  | [] => [[]]
  | c :: rest =>
    match splitLinesAux rest with
    | [] => [[]]
    | h :: t => if c = '\n' then [] :: h :: t else (c :: h) :: t

/-- JS `content.split("\n")`. -/
def splitLines (s : String) : List String :=
  (splitLinesAux s.data).map String.mk

/-- JS `Array.prototype.join` over strings. -/
def strIntercalate (sep : String) (l : List String) : String :=
  String.mk (List.intercalate sep.data (l.map String.data))

/-- The escaping step of `sendToOpenClaw`: the JS global regex replace
`message.replace(/"/g, '\\"')`, i.e. each double quote becomes a
backslash followed by a double quote. -/
def escapeQuotes (s : String) : String :=
  String.mk (s.data.flatMap (fun c => if c = '"' then ['\\', '"'] else [c]))

/-- Shared promise body of `sendToOpenClaw` and `listSessions`: spawn the
agent with the given argument vector, reject on non-zero exit code or on
a spawn error, resolve with trimmed stdout otherwise. -/
def runOpenClaw (agent : List String → SpawnResult) (args : List String) :
    Except String String :=
  match agent args with
  | .closed code stdoutText stderrText =>
    if code ≠ 0 then
      .error ("OpenClaw exited with code " ++ toString code ++ ": " ++ stderrText)
    else
      .ok (strTrim stdoutText)
  | .spawnErr m => .error ("Failed to spawn openclaw: " ++ m)

/-- `sendToOpenClaw(message, timeout)`: escape the message and spawn
`openclaw sessions send --label <label> --message <escaped> --timeout <t>`. -/
def sendToOpenClaw (agent : List String → SpawnResult) (sessionLabel : String)
    (message : String) (timeout : Nat) : Except String String :=
  runOpenClaw agent
    ["sessions", "send", "--label", sessionLabel,
     "--message", escapeQuotes message, "--timeout", toString timeout]

/-- `listSessions()`: spawn `openclaw sessions list --limit 10`. -/
def listSessions (agent : List String → SpawnResult) : Except String String :=
  runOpenClaw agent ["sessions", "list", "--limit", "10"]

/-- Substring test on character lists, the semantics of JS
`String.prototype.includes`. -/
def listContainsSub (pat : List Char) : List Char → Bool
  | [] => pat.isEmpty
  | c :: t => pat.isPrefixOf (c :: t) || listContainsSub pat t

/-- JS `hay.includes(pat)`. -/
def strIncludes (hay pat : String) : Bool :=
  listContainsSub pat.data hay.data

/-- `searchMemory(query)`: case-insensitive substring scan over the lines
of `MEMORY.md`, with the file content supplied explicitly. -/
def searchMemory (memory : Option String) (query : String) : String :=
  match memory with
  | none => "MEMORY.md não encontrado no workspace"
  | some memoryContent =>
    let lines := splitLines memoryContent
    let ms := lines.filter (fun line => strIncludes (strToLower line) (strToLower query))
    if ms.length = 0 then
      "Nenhum resultado encontrado para \"" ++ query ++ "\" na memória."
    else
      "Encontrados " ++ toString ms.length ++ " resultados:\n\n" ++
        strIntercalate "\n" (ms.take 10)

/-- JS template interpolation of a possibly-undefined tool name. -/
def showToolName : Option String → String
  | none => "undefined"
  | some s => s

/-- The inner `switch (toolName)` of the `tools/call` branch, with the
per-tool argument validation; a thrown `Error` is `Except.error`. -/
def callTool (cfg : Config) (env : Env) (toolName : Option String)
    (args : ToolArgs) : Except String String :=
  if toolName = some "ask" then
    match args.message with
    | none => .error "Missing 'message' argument"
    | some m =>
      if m = "" then .error "Missing 'message' argument"
      else sendToOpenClaw env.agent cfg.sessionLabel m 120
  else if toolName = some "memory_search" then
    match args.query with
    | none => .error "Missing 'query' argument"
    | some q =>
      if q = "" then .error "Missing 'query' argument"
      else .ok (searchMemory env.memory q)
  else if toolName = some "sessions_status" then
    listSessions env.agent
  else
    .error ("Unknown tool: " ++ showToolName toolName)

/-- Wrapping of the tool outcome into a result object: success becomes a
text block `result || "Success"`, a caught error becomes an error-flagged
text block reading `Error: <message>`. -/
def toolCallResult (out : Except String String) : RpcResult :=
  match out with
  | .ok text => .callResult [⟨if text = "" then "Success" else text⟩] false
  | .error m => .callResult [⟨"Error: " ++ m⟩] true

/-- Trailing whitespace-run collapser for `replace(/\s+/g, '-')`. -/
def squashWsAux : Bool → List Char → List Char
  | _, [] => []
  | prevWs, c :: rest =>
    if c.isWhitespace then
      if prevWs then squashWsAux true rest else '-' :: squashWsAux true rest
    else
      c :: squashWsAux false rest

/-- `SERVER_INFO.name`: the bot name lowercased with whitespace runs
replaced by dashes, suffixed `-mcp-server`. -/
def serverName (botName : String) : String :=
  String.mk (squashWsAux false (strToLower botName).data) ++ "-mcp-server"

/-- `SERVER_INFO.version`. -/
def serverVersion : String := "1.0.0"

/-- The static `TOOLS` array (descriptions interpolate the bot name). -/
def TOOLS (botName : String) : List ToolDescriptor :=
  [ { name := "ask",
      description := "Enviar uma pergunta ou mensagem para " ++ botName ++
        ". Use quando precisar consultar informações, contexto, ou delegar tarefas específicas.",
      inputSchema :=
        { properties := [⟨"message", "A mensagem ou pergunta para enviar a " ++ botName⟩],
          required := ["message"] } },
    { name := "memory_search",
      description := "Buscar na memória de longo prazo de " ++ botName ++
        " (MEMORY.md). Útil para encontrar decisões passadas, contexto de projetos, etc.",
      inputSchema :=
        { properties := [⟨"query", "Termo ou frase para buscar na memória"⟩],
          required := ["query"] } },
    { name := "sessions_status",
      description := "Verificar status das sessões do OpenClaw",
      inputSchema := { properties := [], required := [] } } ]

/-- The JSON-RPC dispatcher `handleRequest(method, params, id)`, with the
configuration, external world, sessions map and the fresh `randomUUID()`
value passed explicitly; returns the response envelope (`none` for a
notification) and the updated sessions map. -/
def handleRequest (cfg : Config) (env : Env) (sessions : Sessions)
    (freshId : String) (method : String) (params : RpcParams)
    (id : Option JsonId) : Option RpcResponse × Sessions :=
  if method = "initialize" then
    (some { id := id,
            payload := .ok (.initResult "2024-11-05" (serverName cfg.botName)
              serverVersion freshId) },
     (freshId, { initialized := true,
                 protocolVersion := params.protocolVersion,
                 clientInfo := params.clientInfo }) :: sessions)
  else if method = "initialized" then
    (none, sessions)
  else if method = "tools/list" then
    (some { id := id, payload := .ok (.toolsList (TOOLS cfg.botName)) }, sessions)
  else if method = "tools/call" then
    (some { id := id,
            payload := .ok (toolCallResult
              (callTool cfg env params.name (params.arguments.getD {}))) },
     sessions)
  else if method = "ping" then
    (some { id := id, payload := .ok .emptyResult }, sessions)
  else
    (some { id := id,
            payload := .err (-32601) ("Method not found: " ++ method) },
     sessions)

/-- Outcome of the `authenticate` middleware: an early JSON reply with an
HTTP status, or fall through to the route handler (`next()`). -/
inductive AuthOutcome where
  | reject (status : Nat) (code : Int) (message : String)
  | next
deriving DecidableEq, Repr

/-- The `authenticate` middleware on the raw `Authorization` header
(`none` when the header is absent). -/
def authenticate (apiKey : String) (authHeader : Option String) : AuthOutcome :=
  match authHeader with
  | none => .reject 401 (-32600) "Missing or invalid authorization header"
  | some h =>
    if strStartsWith h "Bearer " = false then
      .reject 401 (-32600) "Missing or invalid authorization header"
    else if strDrop h 7 ≠ apiKey then
      .reject 403 (-32600) "Invalid API key"
    else
      .next

/-- The HTTP reply produced for a POST to `/mcp`: a JSON body with a
status code, or an empty-body reply (`res.status(202).end()`). -/
inductive HttpReply where
  | jsonBody (status : Nat) (body : RpcResponse)
  | nobody (status : Nat)
deriving DecidableEq, Repr

/-- The `app.post("/mcp")` route handler after authentication: envelope
version check, then dispatch; a `null` dispatcher value is acknowledged
with an empty-body 202, otherwise the envelope is sent with status 200. -/
def mcpPost (cfg : Config) (env : Env) (sessions : Sessions) (freshId : String)
    (req : RpcRequest) : HttpReply × Sessions :=
  if req.jsonrpc ≠ "2.0" then
    (.jsonBody 400 { id := some .null,
                     payload := .err (-32600) "Invalid JSON-RPC version" },
     sessions)
  else
    match handleRequest cfg env sessions freshId req.method
        (req.params.getD {}) req.id with
    | (none, s) => (.nobody 202, s)
    | (some resp, s) => (.jsonBody 200 resp, s)

/-- Full POST pipeline: the `authenticate` middleware gates the route
handler; a rejection sends its JSON error body with the middleware's
status code. -/
def mcpEndpoint (cfg : Config) (env : Env) (sessions : Sessions)
    (freshId : String) (authHeader : Option String) (req : RpcRequest) :
    HttpReply × Sessions :=
  match authenticate cfg.apiKey authHeader with
  | .reject status code msg =>
    (.jsonBody status { id := some .null, payload := .err code msg }, sessions)
  | .next => mcpPost cfg env sessions freshId req

/-- A string with a nonempty prefix is nonempty. -/
lemma append_ne_empty (s t : String) (h : s ≠ "") : s ++ t ≠ "" := by
  intro he
  apply h
  apply String.ext
  have hd := congrArg String.data he
  rw [String.data_append] at hd
  exact (List.append_eq_nil.mp hd).1

/-- Claim C8: every `tools/list` request returns a result whose tools array
is the static `TOOLS` array — exactly 3 entries named `ask`,
`memory_search`, `sessions_status` in that order, each with its static
input schema — independent of the parameters, the id, and all prior
requests (the sessions map). -/
theorem c8_tools_list (cfg : Config) (env : Env) (sessions : Sessions)
    (fid : String) (params : RpcParams) (id : Option JsonId) :
    handleRequest cfg env sessions fid "tools/list" params id
      = (some { id := id, payload := .ok (.toolsList (TOOLS cfg.botName)) }, sessions)
    ∧ (TOOLS cfg.botName).map ToolDescriptor.name = ["ask", "memory_search", "sessions_status"]
    ∧ (TOOLS cfg.botName).length = 3
    ∧ (TOOLS cfg.botName).map (fun t => t.inputSchema.required) = [["message"], ["query"], []] := by
  exact ⟨rfl, rfl, rfl, rfl⟩

/-- Claim C9: every `initialize` request answers with the constant
protocol version `"2024-11-05"`; the client-supplied `protocolVersion`
is only written into the new session record, and changing it leaves the
response unchanged (it is never echoed back or negotiated). -/
theorem c9_initialize (cfg : Config) (env : Env) (sessions : Sessions)
    (fid : String) (params : RpcParams) (id : Option JsonId) :
    handleRequest cfg env sessions fid "initialize" params id
      = (some { id := id,
                payload := .ok (.initResult "2024-11-05" (serverName cfg.botName) serverVersion fid) },
         (fid, { initialized := true,
                 protocolVersion := params.protocolVersion,
                 clientInfo := params.clientInfo }) :: sessions)
    ∧ ∀ pv : Option String,
        (handleRequest cfg env sessions fid "initialize" { params with protocolVersion := pv } id).1
          = (handleRequest cfg env sessions fid "initialize" params id).1 := by
  exact ⟨rfl, fun _ => rfl⟩

/-- Claim C7: every dispatched method outside
initialize/initialized/tools-list/tools-call/ping yields a JSON-RPC error
envelope with code -32601 (method not found), leaving the sessions map
unchanged. -/
theorem c7_method_not_found (cfg : Config) (env : Env) (sessions : Sessions)
    (fid : String) (method : String) (params : RpcParams) (id : Option JsonId)
    (h : method ∉ (["initialize", "initialized", "tools/list", "tools/call", "ping"] : List String)) :
    handleRequest cfg env sessions fid method params id
      = (some { id := id, payload := .err (-32601) ("Method not found: " ++ method) }, sessions) := by
  simp only [List.mem_cons, List.not_mem_nil, or_false, not_or] at h
  obtain ⟨h1, h2, h3, h4, h5⟩ := h
  simp [handleRequest, h1, h2, h3, h4, h5]

/-- Claim C4: a POST whose `jsonrpc` field is not exactly `"2.0"` is
answered with a status-400 JSON-RPC error of code -32600 whose shape is a
fixed constant — independent of the method, environment and fresh id, so
the dispatcher is never consulted — and the sessions map is unchanged. -/
theorem c4_version_check (cfg : Config) (env : Env) (sessions : Sessions)
    (fid : String) (req : RpcRequest) (h : req.jsonrpc ≠ "2.0") :
    mcpPost cfg env sessions fid req
      = (.jsonBody 400 { id := some .null, payload := .err (-32600) "Invalid JSON-RPC version" },
         sessions) := by
  simp [mcpPost, h]

/-- Claim C2: a well-formed `tools/call` naming a tool outside
ask/memory-search/sessions-status is answered with HTTP 200 and an outer
JSON-RPC success whose result is a single error-flagged text block
reading `Error: Unknown tool: <name>`. -/
theorem c2_unknown_tool (cfg : Config) (env : Env) (sessions : Sessions)
    (fid : String) (req : RpcRequest) (toolName : String)
    (hv : req.jsonrpc = "2.0") (hm : req.method = "tools/call")
    (hn : (req.params.getD {}).name = some toolName)
    (h1 : toolName ≠ "ask") (h2 : toolName ≠ "memory_search")
    (h3 : toolName ≠ "sessions_status") :
    mcpPost cfg env sessions fid req
      = (.jsonBody 200
           { id := req.id,
             payload := .ok (.callResult [⟨"Error: Unknown tool: " ++ toolName⟩] true) },
         sessions) := by
  simp [mcpPost, hv, hm, hn, handleRequest, callTool, toolCallResult, showToolName, h1, h2, h3]
  rw [← String.append_assoc]
  rfl

/-- Claim C6: whenever the dispatcher produces a response envelope, the
envelope's id is exactly the request's id (for every method, including
the error branches); the `initialized` notification produces no envelope
at all, and the transport acknowledges it with an empty-body HTTP 202. -/
theorem c6_id_preserved (cfg : Config) (env : Env) (sessions : Sessions)
    (fid : String) (method : String) (params : RpcParams) (id : Option JsonId) :
    (∀ r s, handleRequest cfg env sessions fid method params id = (some r, s) → r.id = id)
    ∧ handleRequest cfg env sessions fid "initialized" params id = (none, sessions)
    ∧ (∀ req : RpcRequest, req.jsonrpc = "2.0" → req.method = "initialized" →
        mcpPost cfg env sessions fid req = (.nobody 202, sessions)) := by
  refine ⟨?_, rfl, ?_⟩
  · intro r s h
    unfold handleRequest at h
    split_ifs at h <;> simp_all <;> rw [← h.1]
  · intro req hv hm
    simp [mcpPost, hv, hm, handleRequest]

/-- Claim C3: on the authenticated endpoint, a missing `Authorization`
header or one that does not start with `Bearer ` yields status 401; a
bearer token differing from the configured secret (compared as opaque
strings) yields status 403; the correct token lets the request proceed
to dispatch unchanged. -/
theorem c3_authentication (cfg : Config) (env : Env) (sessions : Sessions)
    (fid : String) (req : RpcRequest) :
    mcpEndpoint cfg env sessions fid none req
      = (.jsonBody 401
           { id := some .null,
             payload := .err (-32600) "Missing or invalid authorization header" },
         sessions)
    ∧ (∀ hdr : String, strStartsWith hdr "Bearer " = false →
        mcpEndpoint cfg env sessions fid (some hdr) req
          = (.jsonBody 401
               { id := some .null,
                 payload := .err (-32600) "Missing or invalid authorization header" },
             sessions))
    ∧ (∀ hdr : String, strStartsWith hdr "Bearer " = true → strDrop hdr 7 ≠ cfg.apiKey →
        mcpEndpoint cfg env sessions fid (some hdr) req
          = (.jsonBody 403
               { id := some .null, payload := .err (-32600) "Invalid API key" },
             sessions))
    ∧ (∀ hdr : String, strStartsWith hdr "Bearer " = true → strDrop hdr 7 = cfg.apiKey →
        mcpEndpoint cfg env sessions fid (some hdr) req
          = mcpPost cfg env sessions fid req) := by
  refine ⟨rfl, ?_, ?_, ?_⟩
  · intro hdr hs
    simp [mcpEndpoint, authenticate, hs]
  · intro hdr hs hk
    simp [mcpEndpoint, authenticate, hs, hk]
  · intro hdr hs hk
    simp [mcpEndpoint, authenticate, hs, hk]

/-- Claim C5: `tools/call` of `ask` with a missing or empty message is an
error-flagged block with no agent involvement; otherwise the agent is
spawned with exactly
`sessions send --label <label> --message <escaped> --timeout 120` where
the message has every double quote escaped by a preceding backslash;
exit code 0 resolves to the trimmed stdout, a non-zero exit code yields
an error block wrapping the stderr text, and a spawn failure yields an
error block wrapping the failure reason. -/
theorem c5_ask (cfg : Config) (env : Env) (sessions : Sessions) (fid : String)
    (id : Option JsonId) (args : ToolArgs) :
    ((args.message = none ∨ args.message = some "") →
      (handleRequest cfg env sessions fid "tools/call"
          { name := some "ask", arguments := some args } id).1
        = some { id := id,
                 payload := .ok (.callResult [⟨"Error: Missing 'message' argument"⟩] true) })
    ∧ (∀ m : String, args.message = some m → m ≠ "" →
        (escapeQuotes m).data
            = m.data.flatMap (fun c => if c = '"' then ['\\', '"'] else [c])
        ∧ (∀ stdoutText stderrText : String,
            env.agent ["sessions", "send", "--label", cfg.sessionLabel,
                "--message", escapeQuotes m, "--timeout", "120"]
              = .closed 0 stdoutText stderrText →
            (handleRequest cfg env sessions fid "tools/call"
                { name := some "ask", arguments := some args } id).1
              = some { id := id,
                       payload := .ok (.callResult
                         [⟨if strTrim stdoutText = "" then "Success" else strTrim stdoutText⟩]
                         false) })
        ∧ (∀ (code : Int) (stdoutText stderrText : String),
            env.agent ["sessions", "send", "--label", cfg.sessionLabel,
                "--message", escapeQuotes m, "--timeout", "120"]
              = .closed code stdoutText stderrText →
            code ≠ 0 →
            (handleRequest cfg env sessions fid "tools/call"
                { name := some "ask", arguments := some args } id).1
              = some { id := id,
                       payload := .ok (.callResult
                         [⟨"Error: OpenClaw exited with code " ++ toString code
                             ++ ": " ++ stderrText⟩]
                         true) })
        ∧ (∀ msg : String,
            env.agent ["sessions", "send", "--label", cfg.sessionLabel,
                "--message", escapeQuotes m, "--timeout", "120"]
              = .spawnErr msg →
            (handleRequest cfg env sessions fid "tools/call"
                { name := some "ask", arguments := some args } id).1
              = some { id := id,
                       payload := .ok (.callResult
                         [⟨"Error: Failed to spawn openclaw: " ++ msg⟩]
                         true) })) := by
  have h120 : (toString (120 : Nat)) = "120" := rfl
  constructor
  · intro hmsg
    rcases hmsg with h | h <;> simp [handleRequest, callTool, toolCallResult, h]
  · intro m hm hne
    refine ⟨rfl, ?_, ?_, ?_⟩
    · intro so se hag
      simp [handleRequest, callTool, hm, hne, sendToOpenClaw, runOpenClaw, h120, hag,
        toolCallResult]
    · intro code so se hag hcode
      simp [handleRequest, callTool, hm, hne, sendToOpenClaw, runOpenClaw, h120, hag, hcode,
        toolCallResult, ← String.append_assoc]
    · intro msg hag
      simp [handleRequest, callTool, hm, hne, sendToOpenClaw, runOpenClaw, h120, hag,
        toolCallResult, ← String.append_assoc]

/-- Claim C10: a `tools/call` that completes with an empty trimmed output
string (for `sessions_status` and for `ask`) returns the literal text
block `"Success"` instead of the empty string. -/
theorem c10_empty_output (cfg : Config) (env : Env) (sessions : Sessions) (fid : String)
    (id : Option JsonId) (args : Option ToolArgs) :
    (∀ stdoutText stderrText : String,
        env.agent ["sessions", "list", "--limit", "10"] = .closed 0 stdoutText stderrText →
        strTrim stdoutText = "" →
        (handleRequest cfg env sessions fid "tools/call"
            { name := some "sessions_status", arguments := args } id).1
          = some { id := id, payload := .ok (.callResult [⟨"Success"⟩] false) })
    ∧ (∀ (m stdoutText stderrText : String), m ≠ "" →
        env.agent ["sessions", "send", "--label", cfg.sessionLabel,
            "--message", escapeQuotes m, "--timeout", "120"]
          = .closed 0 stdoutText stderrText →
        strTrim stdoutText = "" →
        (handleRequest cfg env sessions fid "tools/call"
            { name := some "ask", arguments := some { message := some m } } id).1
          = some { id := id, payload := .ok (.callResult [⟨"Success"⟩] false) }) := by
  have h120 : (toString (120 : Nat)) = "120" := rfl
  constructor
  · intro so se hag htrim
    simp [handleRequest, callTool, listSessions, runOpenClaw, hag, htrim, toolCallResult]
  · intro m so se hne hag htrim
    simp [handleRequest, callTool, hne, sendToOpenClaw, runOpenClaw, h120, hag, htrim,
      toolCallResult]

/-- Claim C1 (amended): for `tools/call` of `memory_search` with a
non-empty query — an absent file yields the fixed not-found text as a
normal (non-error) block; zero case-insensitive substring matches yield
the no-results message naming the query; otherwise the text is the
fixed header `Encontrados <exact match count> resultados:` followed by
at most the first 10 matching lines in original file order. -/
theorem c1_memory_search (cfg : Config) (env : Env) (sessions : Sessions) (fid : String)
    (id : Option JsonId) (args : ToolArgs) (q : String)
    (hq : args.query = some q) (hne : q ≠ "") :
    (env.memory = none →
      (handleRequest cfg env sessions fid "tools/call"
          { name := some "memory_search", arguments := some args } id).1
        = some { id := id,
                 payload := .ok (.callResult [⟨"MEMORY.md não encontrado no workspace"⟩]
                   false) })
    ∧ (∀ content : String, env.memory = some content →
        (((splitLines content).filter
              (fun line => strIncludes (strToLower line) (strToLower q))).length = 0 →
          (handleRequest cfg env sessions fid "tools/call"
              { name := some "memory_search", arguments := some args } id).1
            = some { id := id,
                     payload := .ok (.callResult
                       [⟨"Nenhum resultado encontrado para \"" ++ q ++ "\" na memória."⟩]
                       false) })
        ∧ (∀ ms : List String,
            ms = (splitLines content).filter (fun line => strIncludes (strToLower line) (strToLower q)) →
            ms.length ≠ 0 →
            ((handleRequest cfg env sessions fid "tools/call"
                { name := some "memory_search", arguments := some args } id).1
              = some { id := id,
                       payload := .ok (.callResult
                         [⟨"Encontrados " ++ toString ms.length ++ " resultados:\n\n"
                             ++ strIntercalate "\n" (ms.take 10)⟩]
                         false) })
            ∧ (ms.take 10).length ≤ 10
            ∧ (ms.take 10).Sublist (splitLines content))) := by
  constructor
  · intro hmem
    simp [handleRequest, callTool, hq, hne, searchMemory, hmem, toolCallResult]
  · intro content hmem
    constructor
    · intro hzero
      have hnempty :
          ("Nenhum resultado encontrado para \"" ++ q ++ "\" na memória.") ≠ "" :=
        append_ne_empty _ _ (append_ne_empty _ _ (by decide))
      simp [handleRequest, callTool, hq, hne, searchMemory, hmem, hzero, toolCallResult,
        hnempty]
    · intro ms hms hlen
      refine ⟨?_, ?_, ?_⟩
      · have hnempty :
            ("Encontrados " ++ toString ms.length ++ " resultados:\n\n"
              ++ strIntercalate "\n" (ms.take 10)) ≠ "" :=
          append_ne_empty _ _ (append_ne_empty _ _ (append_ne_empty _ _ (by decide)))
        simp [handleRequest, callTool, hq, hne, searchMemory, hmem, ← hms, hlen,
          toolCallResult, hnempty]
      · rw [List.length_take]
        exact min_le_left _ _
      · rw [hms]
        exact (List.take_sublist _ _).trans (List.filter_sublist _)

/-- A concrete configuration for closed evaluations. -/
def cfgEx : Config :=
  { botName := "Assistant", sessionLabel := "main", apiKey := "secret" }

/-- An agent oracle whose spawn always fails. -/
def agentMissing : List String → SpawnResult := fun _ => .spawnErr "spawn openclaw ENOENT"

/-- An agent oracle that exits 0 with empty output. -/
def agentQuiet : List String → SpawnResult := fun _ => .closed 0 "" ""

/-- An agent oracle that exits 2 with diagnostic text on stderr. -/
def agentBroken : List String → SpawnResult := fun _ => .closed 2 "" "boom"

/-- A concrete environment from an agent oracle and a memory file. -/
def envEx (agent : List String → SpawnResult) (memory : Option String) : Env :=
  { agent := agent, memory := memory }

/-- Claim C1 as frozen is false: with one matching line the result text
is `Encontrados 1 resultados:` followed by the line, which does not
begin with the match count `1`. -/
theorem c1_counterexample :
    (handleRequest cfgEx (envEx agentMissing (some "alpha")) [] "u1" "tools/call"
        { name := some "memory_search", arguments := some { query := some "alpha" } }
        (some (.num 1))).1
      = some { id := some (.num 1),
               payload := .ok (.callResult [⟨"Encontrados 1 resultados:\n\nalpha"⟩] false) }
    ∧ strStartsWith "Encontrados 1 resultados:\n\nalpha" "1" = false := by
  exact ⟨by decide, by decide⟩

/-- Witness for C1 at a concrete two-line memory file. -/
theorem c1_memory_search_witness :
    (handleRequest cfgEx (envEx agentMissing (some "alpha\nbeta")) [] "u1" "tools/call"
        { name := some "memory_search", arguments := some { query := some "alpha" } }
        (some (.num 2))).1
      = some { id := some (.num 2),
               payload := .ok (.callResult [⟨"Encontrados 1 resultados:\n\nalpha"⟩] false) } := by
  have h := ((c1_memory_search cfgEx (envEx agentMissing (some "alpha\nbeta")) [] "u1"
      (some (.num 2)) { query := some "alpha" } "alpha" rfl (by decide)).2
      "alpha\nbeta" rfl).2 ["alpha"] (by decide) (by decide)
  exact h.1.trans (by decide)

/-- A concrete `tools/call` request naming an unknown tool. -/
def reqUnknownTool : RpcRequest :=
  { jsonrpc := "2.0", method := "tools/call",
    params := some { name := some "does_not_exist" }, id := some (.num 3) }

/-- Witness for C2 at a concrete request. -/
theorem c2_unknown_tool_witness :
    mcpPost cfgEx (envEx agentMissing none) [] "u1" reqUnknownTool
      = (.jsonBody 200
           { id := some (.num 3),
             payload := .ok (.callResult [⟨"Error: Unknown tool: does_not_exist"⟩] true) },
         []) := by
  have h := c2_unknown_tool cfgEx (envEx agentMissing none) [] "u1" reqUnknownTool
      "does_not_exist" rfl rfl rfl (by decide) (by decide) (by decide)
  exact h.trans (by decide)

/-- Witness for C3 at a wrong and at the correct bearer token. -/
theorem c3_authentication_witness :
    mcpEndpoint cfgEx (envEx agentMissing none) [] "u1" (some "Bearer wrong")
        { jsonrpc := "2.0", method := "ping", id := some (.num 4) }
      = (.jsonBody 403 { id := some .null, payload := .err (-32600) "Invalid API key" }, [])
    ∧ mcpEndpoint cfgEx (envEx agentMissing none) [] "u1" (some "Bearer secret")
        { jsonrpc := "2.0", method := "ping", id := some (.num 4) }
      = mcpPost cfgEx (envEx agentMissing none) [] "u1"
          { jsonrpc := "2.0", method := "ping", id := some (.num 4) } := by
  constructor
  · exact (c3_authentication cfgEx (envEx agentMissing none) [] "u1"
      { jsonrpc := "2.0", method := "ping", id := some (.num 4) }).2.2.1 "Bearer wrong"
      (by decide) (by decide)
  · exact (c3_authentication cfgEx (envEx agentMissing none) [] "u1"
      { jsonrpc := "2.0", method := "ping", id := some (.num 4) }).2.2.2 "Bearer secret"
      (by decide) (by decide)

/-- Witness for C4 at a request with protocol marker 1.0. -/
theorem c4_version_check_witness :
    mcpPost cfgEx (envEx agentMissing none) [] "u1"
        { jsonrpc := "1.0", method := "ping", id := some (.num 5) }
      = (.jsonBody 400
           { id := some .null, payload := .err (-32600) "Invalid JSON-RPC version" },
         []) :=
  c4_version_check cfgEx (envEx agentMissing none) [] "u1"
    { jsonrpc := "1.0", method := "ping", id := some (.num 5) } (by decide)

/-- Witness for C5: the agent exits 2 with stderr text. -/
theorem c5_ask_witness :
    (handleRequest cfgEx (envEx agentBroken none) [] "u1" "tools/call"
        { name := some "ask", arguments := some { message := some "hello" } }
        (some (.num 6))).1
      = some { id := some (.num 6),
               payload := .ok (.callResult [⟨"Error: OpenClaw exited with code 2: boom"⟩]
                 true) } := by
  have h := ((c5_ask cfgEx (envEx agentBroken none) [] "u1" (some (.num 6))
      { message := some "hello" }).2 "hello" rfl (by decide)).2.2.1 2 "" "boom" rfl (by decide)
  exact h.trans (by decide)

/-- Witness for C6: the ping response keeps id 7, and the initialized
notification is acknowledged with an empty-body 202. -/
theorem c6_id_preserved_witness :
    ({ id := some (.num 7), payload := .ok .emptyResult } : RpcResponse).id = some (.num 7)
    ∧ mcpPost cfgEx (envEx agentMissing none) [] "u1"
        { jsonrpc := "2.0", method := "initialized", id := some (.num 7) }
      = (.nobody 202, []) := by
  constructor
  · exact (c6_id_preserved cfgEx (envEx agentMissing none) [] "u1" "ping" {}
      (some (.num 7))).1 { id := some (.num 7), payload := .ok .emptyResult } [] rfl
  · exact (c6_id_preserved cfgEx (envEx agentMissing none) [] "u1" "initialized" {}
      (some (.num 7))).2.2
      { jsonrpc := "2.0", method := "initialized", id := some (.num 7) } rfl rfl

/-- Witness for C7 at the unknown method resources/list. -/
theorem c7_method_not_found_witness :
    handleRequest cfgEx (envEx agentMissing none) [] "u1" "resources/list" {} (some (.num 8))
      = (some { id := some (.num 8),
                payload := .err (-32601) "Method not found: resources/list" },
         []) := by
  have h := c7_method_not_found cfgEx (envEx agentMissing none) [] "u1" "resources/list" {}
      (some (.num 8)) (by decide)
  exact h.trans (by decide)

/-- Witness for C10: the silent agent produces the Success block. -/
theorem c10_empty_output_witness :
    (handleRequest cfgEx (envEx agentQuiet none) [] "u1" "tools/call"
        { name := some "sessions_status" } (some (.num 9))).1
      = some { id := some (.num 9), payload := .ok (.callResult [⟨"Success"⟩] false) } :=
  (c10_empty_output cfgEx (envEx agentQuiet none) [] "u1" (some (.num 9)) none).1 "" "" rfl rfl
